import Mathlib

/-!
Verification of the go-lpsensors driver core (STMicro LPS331A / LPS25H /
LPS22H pressure sensors) against its natural-language specification.

The Go code is shallowly embedded as follows.  The bus is an oracle: a
finite script of replies (`BusReply`), one per bus transaction; a
transaction performed when the script is exhausted yields the
distinguished result `DrvError.pending`, which models "the operation has
not returned yet" (used to express that the poll loop runs forever on a
never-clearing flag).  Every operation additionally returns the ordered
list of bus transactions it issued (`BusTx`) and the updated oracle
state.  Cancellation (Go `context.Context`) is a boolean schedule over
wait events: `cancel i` tells whether the context is observed as done at
the i-th wait; bus transactions themselves are never cancelled, matching
the code where only the waits between transactions select on `ctx.Done()`.
Real-time durations (the 5 ms poll interval, the 5 ms reset waits) are
outside the model; waits are discrete events counted by `waitIdx`.

Machine integers: Go bytes are `Nat` values reduced `% 256` where they
enter arithmetic; `physic.Temperature` (int64 nanokelvin) and
`physic.Pressure` (int64 nanopascal) are `Int`; Go's `int64` division
truncates toward zero, embedded as `Int.tdiv`.  None of the involved
computations overflow their Go types (raw pressure is below 2^24, the
pressure product below 2^50, temperatures below 2^46), so plain
`Nat`/`Int` arithmetic is exact.
-/

namespace LPS

/-- A bus transaction as issued by the driver: a write of a flat
`(register, value, register, value, ...)` byte list, or a burst read of
`len` bytes starting at register `reg` (the register byte is recorded as
passed by the caller, including a set bit 7 for burst/read framing). -/
inductive BusTx where
  | write (data : List Nat)
  | read (reg : Nat) (len : Nat)
deriving DecidableEq

/-- One scripted reply of the bus oracle: the transaction succeeds and
returns `data` (empty for writes), or the transaction fails. -/
inductive BusReply where
  | ok (data : List Nat)
  | err
deriving DecidableEq

/-- Error kinds of the driver (Go wraps errors in message strings; only
the kind is modelled).  `pending` is not a Go error: it reports that the
reply script ran out, i.e. the computation is still in progress. -/
inductive DrvError where
  | txError
  | cancelled
  | unsupportedChip (b : Nat)
  | unknownChip (b : Nat)
  | pending
deriving DecidableEq

/-- Oracle state: remaining reply script and the index of the next wait
event (used by the cancellation schedule). -/
structure S where
  script : List BusReply
  waitIdx : Nat
deriving DecidableEq

/-- Result of running an embedded operation: outcome, the bus
transactions issued by it (in order), and the final oracle state. -/
structure Out (α : Type) where
  res : Except DrvError α
  trace : List BusTx
  st : S

/-- Register map of the resolved chip variant (`Dev.regs` in Go). -/
structure Regs where
  ctrl_reg1 : Nat
  ctrl_reg2 : Nat
  res_conf : Nat
deriving DecidableEq

/-- The device handle (Go `Dev`); the bus connection itself is replaced
by the oracle state threaded through each operation. -/
structure Dev where
  isSPI : Bool
  name : String
  chipType : Nat
  oneshotMode : Bool
  regs : Regs
  initCmd : Nat
deriving DecidableEq

inductive MeasurementMode where
  | OneShot
  | Continuous
deriving DecidableEq

structure Opts where
  Mode : MeasurementMode
deriving DecidableEq

def DefaultOpts : Opts := ⟨MeasurementMode.Continuous⟩

def chipLPS331A : Nat := 0xbb
def chipLPS25H : Nat := 0xbd
def chipLPS22H : Nat := 0xb1

/-- SPI write framing (`writeCommands` in Go): clear the MSB of every
register byte, i.e. of every even-position byte (`b[i] &^= 0x80` for
even `i`); value bytes are untouched.  On a byte, `&^ 0x80` is
`% 256 % 128`. -/
def spiMaskWrite : List Nat → List Nat
  | r :: v :: rest => (r % 256 % 128) :: v :: spiMaskWrite rest
  | l => l

/-- Bytes actually put on the wire by `writeCommands` for payload `b`. -/
def writeData (d : Dev) (b : List Nat) : List Nat :=
  if d.isSPI then spiMaskWrite b else b

/-- `readReg`: one bus transaction reading `len` bytes from `reg`.  For
both framings (I2C address write + read, SPI echo-byte discard) the
caller's buffer receives exactly the scripted bytes. -/
def readRegT (reg : Nat) (len : Nat) (s : S) : Out (List Nat) :=
  match s.script with
  | [] => ⟨Except.error DrvError.pending, [BusTx.read reg len], ⟨[], s.waitIdx⟩⟩
  | BusReply.err :: rest => ⟨Except.error DrvError.txError, [BusTx.read reg len], ⟨rest, s.waitIdx⟩⟩
  | BusReply.ok data :: rest =>
      ⟨Except.ok (data.map (fun x => x % 256)), [BusTx.read reg len], ⟨rest, s.waitIdx⟩⟩

/-- `writeCommands`: one bus transaction writing `b` (after SPI
masking). -/
def writeCommandsT (d : Dev) (b : List Nat) (s : S) : Out Unit :=
  match s.script with
  | [] => ⟨Except.error DrvError.pending, [BusTx.write (writeData d b)], ⟨[], s.waitIdx⟩⟩
  | BusReply.err :: rest => ⟨Except.error DrvError.txError, [BusTx.write (writeData d b)], ⟨rest, s.waitIdx⟩⟩
  | BusReply.ok _ :: rest => ⟨Except.ok (), [BusTx.write (writeData d b)], ⟨rest, s.waitIdx⟩⟩

/-- `waitCancel`: a wait event; if the cancellation schedule fires at
this wait the context error is returned, otherwise the timer fires. -/
def waitCancelT (cancel : Nat → Bool) (s : S) : Out Unit :=
  if cancel s.waitIdx then
    ⟨Except.error DrvError.cancelled, [], ⟨s.script, s.waitIdx + 1⟩⟩
  else
    ⟨Except.ok (), [], ⟨s.script, s.waitIdx + 1⟩⟩

/-- Sequencing of two unit-valued steps, accumulating traces; the second
step runs only if the first succeeded. -/
def seqOut (a : Out Unit) (f : S → Out Unit) : Out Unit :=
  match a.res with
  | Except.error e => ⟨Except.error e, a.trace, a.st⟩
  | Except.ok _ =>
      let b := f a.st
      ⟨b.res, a.trace ++ b.trace, b.st⟩

/-- The re-read loop inside `setAndCheckCtrlReg2`: read CTRL_REG2; if
`b[0] & value == 0` return success; otherwise wait (cancellable) and
repeat.  Recursion is on the remaining reply script; its exhaustion
yields `pending` ("still polling"). -/
def pollCtrlReg2 (d : Dev) (value : Nat) (cancel : Nat → Bool) :
    List BusReply → Nat → Out Unit
  | [], w => ⟨Except.error DrvError.pending, [BusTx.read d.regs.ctrl_reg2 1], ⟨[], w⟩⟩
  | BusReply.err :: rest, w =>
      ⟨Except.error DrvError.txError, [BusTx.read d.regs.ctrl_reg2 1], ⟨rest, w⟩⟩
  | BusReply.ok data :: rest, w =>
      if data.headD 0 % 256 &&& value % 256 = 0 then
        ⟨Except.ok (), [BusTx.read d.regs.ctrl_reg2 1], ⟨rest, w⟩⟩
      else if cancel w then
        ⟨Except.error DrvError.cancelled, [BusTx.read d.regs.ctrl_reg2 1], ⟨rest, w + 1⟩⟩
      else
        let o := pollCtrlReg2 d value cancel rest (w + 1)
        ⟨o.res, BusTx.read d.regs.ctrl_reg2 1 :: o.trace, o.st⟩

/-- `setAndCheckCtrlReg2`: write `value` to CTRL_REG2 once, then poll
the same register until `readByte & value == 0`. -/
def setAndCheckCtrlReg2 (d : Dev) (value : Nat) (cancel : Nat → Bool) (s : S) : Out Unit :=
  let wr := writeCommandsT d [d.regs.ctrl_reg2, value] s
  match wr.res with
  | Except.error e => ⟨Except.error e, wr.trace, wr.st⟩
  | Except.ok _ =>
      let o := pollCtrlReg2 d value cancel wr.st.script wr.st.waitIdx
      ⟨o.res, wr.trace ++ o.trace, o.st⟩

/-- `Init`: one-shot mode only sets the flag on the handle; continuous
mode writes the precomputed initial control byte to CTRL_REG1.  The
(possibly updated) handle is returned in place of Go's in-place
mutation. -/
def Init (d : Dev) (o : Opts) (s : S) : Out Dev :=
  if o.Mode = MeasurementMode.OneShot then
    ⟨Except.ok { d with oneshotMode := true }, [], s⟩
  else
    let wr := writeCommandsT d [d.regs.ctrl_reg1, d.initCmd] s
    ⟨wr.res.map (fun _ => d), wr.trace, wr.st⟩

/-- `ShowCtrls`: diagnostic reads of CTRL_REG1, CTRL_REG2 and (when
present) RES_CONF; read failures are fatal. -/
def ShowCtrls (d : Dev) (s : S) : Out Unit :=
  let r1 := readRegT d.regs.ctrl_reg1 1 s
  match r1.res with
  | Except.error e => ⟨Except.error e, r1.trace, r1.st⟩
  | Except.ok _ =>
      let r2 := readRegT d.regs.ctrl_reg2 1 r1.st
      match r2.res with
      | Except.error e => ⟨Except.error e, r1.trace ++ r2.trace, r2.st⟩
      | Except.ok _ =>
          if d.regs.res_conf = 0 then
            ⟨Except.ok (), r1.trace ++ r2.trace, r2.st⟩
          else
            let r3 := readRegT d.regs.res_conf 1 r2.st
            ⟨r3.res.map (fun _ => ()), r1.trace ++ r2.trace ++ r3.trace, r3.st⟩

/-- Tail of `makeDev` after the chip switch: control-register snapshot,
then `Init`. -/
def makeDevRest (d : Dev) (o : Opts) (s : S) : Out Dev :=
  let sc := ShowCtrls d s
  match sc.res with
  | Except.error e => ⟨Except.error e, sc.trace, sc.st⟩
  | Except.ok _ =>
      let i := Init d o sc.st
      ⟨i.res, sc.trace ++ i.trace, i.st⟩

/-- `makeDev`: read WHO_AM_I (0x0F), dispatch on the identification
byte to fix name, register map and `initCmd = PD<<7 | ODRs<<4`, then run
`ShowCtrls` and `Init`.  Any other identification byte fails
construction. -/
def makeDev (isSPI : Bool) (opts : Option Opts) (s : S) : Out Dev :=
  let o := opts.getD DefaultOpts
  let r := readRegT 0x0F 1 s
  match r.res with
  | Except.error e => ⟨Except.error e, r.trace, r.st⟩
  | Except.ok data =>
      let ct := data.getD 0 0
      if ct = chipLPS331A then
        let t := makeDevRest
          { isSPI := isSPI, name := "LPS331A", chipType := ct, oneshotMode := false,
            regs := ⟨0x20, 0x21, 0x10⟩, initCmd := 1 <<< 7 ||| 0b110 <<< 4 } o r.st
        ⟨t.res, r.trace ++ t.trace, t.st⟩
      else if ct = chipLPS25H then
        let t := makeDevRest
          { isSPI := isSPI, name := "LPS25H", chipType := ct, oneshotMode := false,
            regs := ⟨0x20, 0x21, 0x10⟩, initCmd := 1 <<< 7 ||| 0b011 <<< 4 } o r.st
        ⟨t.res, r.trace ++ t.trace, t.st⟩
      else if ct = chipLPS22H then
        let t := makeDevRest
          { isSPI := isSPI, name := "LPS22H", chipType := ct, oneshotMode := false,
            regs := ⟨0x10, 0x11, 0x00⟩, initCmd := 0 <<< 7 ||| 0b110 <<< 4 } o r.st
        ⟨t.res, r.trace ++ t.trace, t.st⟩
      else
        ⟨Except.error (DrvError.unsupportedChip ct), r.trace, r.st⟩

/-- The RES_CONF step of `measureOneshot`: when the variant has a
resolution-configuration register, write its variant-specific averaging
code; the switch has an explicit unknown-chip default. -/
def resConfStep (d : Dev) (s : S) : Out Unit :=
  if d.regs.res_conf = 0 then ⟨Except.ok (), [], s⟩
  else if d.chipType = chipLPS25H then writeCommandsT d [d.regs.res_conf, 0b00001111] s
  else if d.chipType = chipLPS331A then writeCommandsT d [d.regs.res_conf, 0b01111010] s
  else ⟨Except.error (DrvError.unknownChip d.chipType), [], s⟩

/-- `measureOneshot`: power-down write, optional RES_CONF write,
power-up write (PD=1, BDU=1), then trigger-and-poll on ONE_SHOT[0]. -/
def measureOneshot (d : Dev) (cancel : Nat → Bool) (s : S) : Out Unit :=
  seqOut (writeCommandsT d [d.regs.ctrl_reg1, 0] s) (fun s1 =>
  seqOut (resConfStep d s1) (fun s2 =>
  seqOut (writeCommandsT d [d.regs.ctrl_reg1, 0b10000100] s2) (fun s3 =>
  setAndCheckCtrlReg2 d 0b1 cancel s3)))

/-- `physic.Temperature`/`physic.Pressure` pair produced by a reading
(int64 nanokelvin, int64 nanopascal). -/
structure SensorValues where
  Temperature : Int
  Pressure : Int
deriving DecidableEq

/-- Result of `sense`/`Sense`: the outcome, the (possibly mutated)
caller record, the trace, and the oracle state. -/
structure SenseOut where
  res : Except DrvError Unit
  e : SensorValues
  trace : List BusTx
  st : S

/-- Reinterpret the low 16 bits of `n` as a signed two's-complement
value (`int16(datum[1])<<8 | int16(datum[0])` in Go). -/
def toInt16 (n : Nat) : Int :=
  if n % 65536 < 32768 then ((n % 65536 : Nat) : Int)
  else ((n % 65536 : Nat) : Int) - 65536

/-- Inner `sense`: burst-read 2 temperature bytes from 0x2B|0x80,
update the temperature by the variant's law (the LPS22H switch case is
empty in the source, so it assigns nothing), then burst-read 3 pressure
bytes from 0x28|0x80 and update the pressure.  The raw pressure is the
unsigned little-endian combination of the three bytes (the Go `int32` it
is built in cannot go negative since the value is below 2^24, and the
subsequent `uint64` conversion is then the identity); the `uint64`
product `rawPress * ((10^11)/2048)` is below 2^50, so `Nat` arithmetic
matches Go exactly. -/
def sense (d : Dev) (e : SensorValues) (s : S) : SenseOut :=
  let rt := readRegT (0x2b ||| 0x80) 2 s
  match rt.res with
  | Except.error er => ⟨Except.error er, e, rt.trace, rt.st⟩
  | Except.ok tdata =>
      let rawTemp : Int := toInt16 (tdata.getD 1 0 <<< 8 ||| tdata.getD 0 0)
      let e1 :=
        if d.chipType = chipLPS331A then
          { e with Temperature :=
              273150000000 + 425 * 1000000000 / 10 + (rawTemp * 1000000000).tdiv 480 }
        else if d.chipType = chipLPS22H then e
        else if d.chipType = chipLPS25H then
          { e with Temperature := 273150000000 + (rawTemp * 1000000000).tdiv 100 }
        else e
      let rp := readRegT (0x28 ||| 0x80) 3 rt.st
      match rp.res with
      | Except.error er => ⟨Except.error er, e1, rt.trace ++ rp.trace, rp.st⟩
      | Except.ok pdata =>
          let rawPress : Nat := pdata.getD 2 0 <<< 16 ||| pdata.getD 1 0 <<< 8 ||| pdata.getD 0 0
          let e2 := { e1 with Pressure := ((rawPress * 48828125 / 2 : Nat) : Int) }
          ⟨Except.ok (), e2, rt.trace ++ rp.trace, rp.st⟩

/-- Public `Sense`: in one-shot mode run the one-shot measurement
sub-protocol first, then the read-and-convert step. -/
def Sense (d : Dev) (cancel : Nat → Bool) (e : SensorValues) (s : S) : SenseOut :=
  if d.oneshotMode then
    let m := measureOneshot d cancel s
    match m.res with
    | Except.error er => ⟨Except.error er, e, m.trace, m.st⟩
    | Except.ok _ =>
        let o := sense d e m.st
        ⟨o.res, o.e, m.trace ++ o.trace, o.st⟩
  else
    sense d e s

/-- `swResetLPS331`: write SWRESET (0b100), wait 5 ms (cancellable),
write 0 to clear it (not auto-cleared on this chip), wait 5 ms
(cancellable), then read and discard 5 bytes from 0x28|0x80 to flush the
status register. -/
def swResetLPS331 (d : Dev) (cancel : Nat → Bool) (s : S) : Out Unit :=
  seqOut (writeCommandsT d [d.regs.ctrl_reg2, 0b100] s) (fun s1 =>
  seqOut (waitCancelT cancel s1) (fun s2 =>
  seqOut (writeCommandsT d [d.regs.ctrl_reg2, 0] s2) (fun s3 =>
  seqOut (waitCancelT cancel s3) (fun s4 =>
    let r := readRegT (0x28 ||| 0x80) 5 s4
    ⟨r.res.map (fun _ => ()), r.trace, r.st⟩))))

/-- `SWReset`: LPS331A uses the dedicated sequence; LPS22H/LPS25H go
through command-and-poll with SWRESET[2]. -/
def SWReset (d : Dev) (cancel : Nat → Bool) (s : S) : Out Unit :=
  if d.chipType = chipLPS331A then swResetLPS331 d cancel s
  else if d.chipType = chipLPS22H ∨ d.chipType = chipLPS25H then
    setAndCheckCtrlReg2 d 0b100 cancel s
  else ⟨Except.error (DrvError.unknownChip d.chipType), [], s⟩

/-- Field shape of every handle `makeDev` can produce: one of the three
variants' name/register-map/initCmd combinations. -/
def IsConstructedDev (d : Dev) : Prop :=
  (d.chipType = chipLPS331A ∧ d.regs = ⟨0x20, 0x21, 0x10⟩ ∧ d.initCmd = 0xe0) ∨
  (d.chipType = chipLPS25H ∧ d.regs = ⟨0x20, 0x21, 0x10⟩ ∧ d.initCmd = 0xb0) ∨
  (d.chipType = chipLPS22H ∧ d.regs = ⟨0x10, 0x11, 0x00⟩ ∧ d.initCmd = 0x60)

/-- Index of the first poll byte that clears the mask (`b & value == 0`),
if any. -/
def firstClear (value : Nat) : List Nat → Option Nat
  | [] => none
  | b :: rest =>
      if b % 256 &&& value % 256 = 0 then some 0
      else (firstClear value rest).map (fun i => i + 1)

/-- LPS331A handle as produced by construction (I2C, one-shot off). -/
def dev331 : Dev :=
  ⟨false, "LPS331A", chipLPS331A, false, ⟨0x20, 0x21, 0x10⟩, 0xe0⟩

/-- LPS25H handle as produced by construction (I2C, one-shot off). -/
def dev25 : Dev :=
  ⟨false, "LPS25H", chipLPS25H, false, ⟨0x20, 0x21, 0x10⟩, 0xb0⟩

/-- LPS22H handle as produced by construction (I2C, one-shot off). -/
def dev22 : Dev :=
  ⟨false, "LPS22H", chipLPS22H, false, ⟨0x10, 0x11, 0x00⟩, 0x60⟩

/-! ### Helper lemmas about the command-and-poll loop -/

/-- On an all-successful read script, the poll loop succeeds exactly at
the first byte clearing the mask; with no clearing byte it is still
polling after consuming the whole script. -/
lemma pollCtrlReg2_firstClear (d : Dev) (value : Nat) (bs : List Nat) (w : Nat) :
    (∀ i, firstClear value bs = some i →
      (pollCtrlReg2 d value (fun _ => false) (bs.map (fun b => BusReply.ok [b])) w).res
          = Except.ok () ∧
      (pollCtrlReg2 d value (fun _ => false) (bs.map (fun b => BusReply.ok [b])) w).trace
          = List.replicate (i + 1) (BusTx.read d.regs.ctrl_reg2 1)) ∧
    (firstClear value bs = none →
      (pollCtrlReg2 d value (fun _ => false) (bs.map (fun b => BusReply.ok [b])) w).res
          = Except.error DrvError.pending ∧
      (pollCtrlReg2 d value (fun _ => false) (bs.map (fun b => BusReply.ok [b])) w).trace
          = List.replicate (bs.length + 1) (BusTx.read d.regs.ctrl_reg2 1)) := by
  induction bs generalizing w with
  | nil =>
      refine ⟨fun i hi => by simp [firstClear] at hi, fun _ => ?_⟩
      simp [pollCtrlReg2]
  | cons b rest ih =>
      by_cases hb : b % 256 &&& value % 256 = 0
      · refine ⟨fun i hi => ?_, fun hn => ?_⟩
        · simp only [firstClear, if_pos hb, Option.some.injEq] at hi
          subst hi
          simp [pollCtrlReg2, hb]
        · simp [firstClear, hb] at hn
      · refine ⟨fun i hi => ?_, fun hn => ?_⟩
        · simp only [firstClear, if_neg hb] at hi
          rcases Option.map_eq_some'.mp hi with ⟨j, hj, hij⟩
          subst hij
          have h1 := ((ih (w + 1)).1 j hj).1
          have h2 := ((ih (w + 1)).1 j hj).2
          refine ⟨?_, ?_⟩
          · simp [pollCtrlReg2, hb, h1]
          · simp [pollCtrlReg2, hb, h2, List.replicate_succ]
        · simp only [firstClear, if_neg hb, Option.map_eq_none'] at hn
          have h1 := ((ih (w + 1)).2 hn).1
          have h2 := ((ih (w + 1)).2 hn).2
          refine ⟨?_, ?_⟩
          · simp [pollCtrlReg2, hb, h1]
          · simp [pollCtrlReg2, hb, h2, List.replicate_succ]

/-- C3: with the triggering write acknowledged and all subsequent reads
succeeding, `setAndCheckCtrlReg2` returns success exactly at the first
read whose value `v` satisfies `v &&& mask = 0` (neither earlier — even
if unrelated bits are set or clear — nor later), issuing the write once
followed by exactly `i + 1` reads of the secondary control register; if
no read clears the masked bits and the context never cancels, it is
still polling after any finite number of reads (one read per script
entry, the trigger write never re-issued).  The 5 ms pause between
re-reads is a real-time property outside the model; waits appear only as
discrete events. -/
theorem setAndCheckCtrlReg2_first_clear (d : Dev) (value : Nat) (bs : List Nat) (w : Nat) :
    (∀ i, firstClear value bs = some i →
      (setAndCheckCtrlReg2 d value (fun _ => false)
          ⟨BusReply.ok [] :: bs.map (fun b => BusReply.ok [b]), w⟩).res = Except.ok () ∧
      (setAndCheckCtrlReg2 d value (fun _ => false)
          ⟨BusReply.ok [] :: bs.map (fun b => BusReply.ok [b]), w⟩).trace
        = BusTx.write (writeData d [d.regs.ctrl_reg2, value])
            :: List.replicate (i + 1) (BusTx.read d.regs.ctrl_reg2 1)) ∧
    (firstClear value bs = none →
      (setAndCheckCtrlReg2 d value (fun _ => false)
          ⟨BusReply.ok [] :: bs.map (fun b => BusReply.ok [b]), w⟩).res
        = Except.error DrvError.pending ∧
      (setAndCheckCtrlReg2 d value (fun _ => false)
          ⟨BusReply.ok [] :: bs.map (fun b => BusReply.ok [b]), w⟩).trace
        = BusTx.write (writeData d [d.regs.ctrl_reg2, value])
            :: List.replicate (bs.length + 1) (BusTx.read d.regs.ctrl_reg2 1)) := by
  have h := pollCtrlReg2_firstClear d value bs w
  constructor
  · intro i hi
    refine ⟨?_, ?_⟩
    · simp only [setAndCheckCtrlReg2, writeCommandsT]
      exact (h.1 i hi).1
    · simp only [setAndCheckCtrlReg2, writeCommandsT, (h.1 i hi).2]
      rfl
  · intro hn
    refine ⟨?_, ?_⟩
    · simp only [setAndCheckCtrlReg2, writeCommandsT]
      exact (h.2 hn).1
    · simp only [setAndCheckCtrlReg2, writeCommandsT, (h.2 hn).2]
      rfl

/-- Witness for C3 at a concrete run: mask `0b1`, first read `0b11`
(one-shot bit still set together with an unrelated bit — no early
success), second read `0b10` (masked bit clear although an unrelated bit
is set — success now). -/
theorem setAndCheckCtrlReg2_first_clear_w :
    firstClear 0b1 [0b11, 0b10] = some 1 ∧
    (setAndCheckCtrlReg2 dev331 0b1 (fun _ => false)
        ⟨[BusReply.ok [], BusReply.ok [0b11], BusReply.ok [0b10]], 0⟩).res = Except.ok () ∧
    (setAndCheckCtrlReg2 dev331 0b1 (fun _ => false)
        ⟨[BusReply.ok [], BusReply.ok [0b11], BusReply.ok [0b10]], 0⟩).trace
      = [BusTx.write [0x21, 0b1], BusTx.read 0x21 1, BusTx.read 0x21 1] := by
  have h := (setAndCheckCtrlReg2_first_clear dev331 0b1 [0b11, 0b10] 0).1 1 rfl
  exact ⟨rfl, h.1, h.2⟩

/-- A run of `k` busy reads (flag still set) consumes `k` script
entries, issues `k` reads, advances the wait counter by `k`, and then
behaves like the loop started on the remaining script. -/
lemma pollCtrlReg2_replicate_busy (d : Dev) (value k w busyByte : Nat)
    (hb : ¬(busyByte % 256 &&& value % 256 = 0)) (rest : List BusReply) :
    pollCtrlReg2 d value (fun _ => false)
        (List.replicate k (BusReply.ok [busyByte]) ++ rest) w =
      ⟨(pollCtrlReg2 d value (fun _ => false) rest (w + k)).res,
       List.replicate k (BusTx.read d.regs.ctrl_reg2 1)
         ++ (pollCtrlReg2 d value (fun _ => false) rest (w + k)).trace,
       (pollCtrlReg2 d value (fun _ => false) rest (w + k)).st⟩ := by
  induction k generalizing w with
  | zero => simp
  | succ n ih =>
      have hw : w + 1 + n = w + (n + 1) := by omega
      simp [List.replicate_succ, pollCtrlReg2, hb, ih (w + 1), hw]

/-- `setAndCheckCtrlReg2` on a script of `k` busy reads followed by a
clearing read: success, one write then `k + 1` reads, `k` waits. -/
lemma setAndCheckCtrlReg2_busy_then_clear (d : Dev) (value k w busyByte clearByte : Nat)
    (hb : ¬(busyByte % 256 &&& value % 256 = 0)) (hc : clearByte % 256 &&& value % 256 = 0)
    (rest : List BusReply) :
    setAndCheckCtrlReg2 d value (fun _ => false)
        ⟨BusReply.ok [] :: (List.replicate k (BusReply.ok [busyByte])
            ++ (BusReply.ok [clearByte] :: rest)), w⟩ =
      ⟨Except.ok (),
       BusTx.write (writeData d [d.regs.ctrl_reg2, value])
         :: List.replicate (k + 1) (BusTx.read d.regs.ctrl_reg2 1),
       ⟨rest, w + k⟩⟩ := by
  simp [setAndCheckCtrlReg2, writeCommandsT,
    pollCtrlReg2_replicate_busy d value k w busyByte hb, pollCtrlReg2, hc,
    List.replicate_succ']

/-- If the cancellation schedule first fires at the loop's `j`-th wait
(and the first `j + 1` reads all show the flag still set), the loop
stops with a cancellation error right there: exactly `j + 1` reads are
issued, whatever replies remain scripted. -/
lemma pollCtrlReg2_cancel_at (d : Dev) (value : Nat) (cancel : Nat → Bool) (bs : List Nat)
    (j w : Nat) (rest : List BusReply)
    (hbs : ∀ b ∈ bs, ¬(b % 256 &&& value % 256 = 0))
    (hj : j < bs.length)
    (hcf : ∀ i, i < w + j → cancel i = false)
    (hct : cancel (w + j) = true) :
    (pollCtrlReg2 d value cancel (bs.map (fun b => BusReply.ok [b]) ++ rest) w).res
        = Except.error DrvError.cancelled ∧
    (pollCtrlReg2 d value cancel (bs.map (fun b => BusReply.ok [b]) ++ rest) w).trace
        = List.replicate (j + 1) (BusTx.read d.regs.ctrl_reg2 1) := by
  induction bs generalizing j w with
  | nil => simp at hj
  | cons b bs' ih =>
      have hb : ¬(b % 256 &&& value % 256 = 0) := hbs b (List.mem_cons_self b bs')
      cases j with
      | zero =>
          have hcw : cancel w = true := hct
          refine ⟨?_, ?_⟩ <;> simp [pollCtrlReg2, hb, hcw]
      | succ n =>
          have hcw : cancel w = false := hcf w (by omega)
          have h1 : ∀ x ∈ bs', ¬(x % 256 &&& value % 256 = 0) :=
            fun x hx => hbs x (List.mem_cons_of_mem b hx)
          have h2 : n < bs'.length := by
            simpa using Nat.lt_of_succ_lt_succ (by simpa using hj)
          have h3 : ∀ i, i < w + 1 + n → cancel i = false :=
            fun i hi => hcf i (by omega)
          have h4 : cancel (w + 1 + n) = true := by
            have hw : w + 1 + n = w + (n + 1) := by omega
            rw [hw]; exact hct
          have hrec := ih n (w + 1) h1 h2 h3 h4
          refine ⟨?_, ?_⟩ <;>
            simp [pollCtrlReg2, hb, hcw, hrec.1, hrec.2, List.replicate_succ]

/-- C8: if the caller's context becomes cancelled at (and from) the
`j`-th wait of the command-and-poll loop while the flag is still set,
the operation returns the cancellation error observed during that wait
and issues no further bus transaction: the trace ends with the read that
preceded the wait (the trigger write plus `j + 1` reads), no matter how
many more scripted replies (`rest`) were available. -/
theorem setAndCheckCtrlReg2_cancelled (d : Dev) (value : Nat) (bs : List Nat) (j w : Nat)
    (rest : List BusReply)
    (hbs : ∀ b ∈ bs, ¬(b % 256 &&& value % 256 = 0)) (hj : j < bs.length) :
    (setAndCheckCtrlReg2 d value (fun i => decide (w + j ≤ i))
        ⟨BusReply.ok [] :: (bs.map (fun b => BusReply.ok [b]) ++ rest), w⟩).res
      = Except.error DrvError.cancelled ∧
    (setAndCheckCtrlReg2 d value (fun i => decide (w + j ≤ i))
        ⟨BusReply.ok [] :: (bs.map (fun b => BusReply.ok [b]) ++ rest), w⟩).trace
      = BusTx.write (writeData d [d.regs.ctrl_reg2, value])
          :: List.replicate (j + 1) (BusTx.read d.regs.ctrl_reg2 1) := by
  have hd := pollCtrlReg2_cancel_at d value (fun i => decide (w + j ≤ i)) bs j w rest hbs hj
    (fun i hi => by simp only [decide_eq_false_iff_not]; omega)
    (by simp)
  refine ⟨?_, ?_⟩ <;> simp [setAndCheckCtrlReg2, writeCommandsT, hd.1, hd.2]

/-- Witness for C8: one-shot flag never clears (reads return 0b1),
context cancelled from the second wait on; the run stops with the
cancellation error after the write and two reads, leaving the remaining
scripted replies unconsumed. -/
theorem setAndCheckCtrlReg2_cancelled_w :
    (setAndCheckCtrlReg2 dev331 0b1 (fun i => decide (1 ≤ i))
        ⟨[BusReply.ok [], BusReply.ok [0b1], BusReply.ok [0b1], BusReply.ok [0b1]], 0⟩).res
      = Except.error DrvError.cancelled ∧
    (setAndCheckCtrlReg2 dev331 0b1 (fun i => decide (1 ≤ i))
        ⟨[BusReply.ok [], BusReply.ok [0b1], BusReply.ok [0b1], BusReply.ok [0b1]], 0⟩).trace
      = [BusTx.write [0x21, 0b1], BusTx.read 0x21 1, BusTx.read 0x21 1] := by
  have h := setAndCheckCtrlReg2_cancelled dev331 0b1 [0b1, 0b1] 1 0 [BusReply.ok [0b1]]
    (by intro b hb; fin_cases hb <;> decide) (by decide)
  exact ⟨h.1, h.2⟩

/-! ### Read-and-convert lemmas -/

/-- A successful inner `sense` run: exactly the 2-byte temperature read
at `0x2B|0x80` then the 3-byte pressure read at `0x28|0x80`, and the
pressure field set from the unsigned little-endian byte combination. -/
lemma sense_ok_parts (d : Dev) (e : SensorValues) (t0 t1 p0 p1 p2 : Nat)
    (rest : List BusReply) (w : Nat) :
    (sense d e ⟨BusReply.ok [t0, t1] :: BusReply.ok [p0, p1, p2] :: rest, w⟩).res
        = Except.ok () ∧
    (sense d e ⟨BusReply.ok [t0, t1] :: BusReply.ok [p0, p1, p2] :: rest, w⟩).trace
        = [BusTx.read (0x2b ||| 0x80) 2, BusTx.read (0x28 ||| 0x80) 3] ∧
    (sense d e ⟨BusReply.ok [t0, t1] :: BusReply.ok [p0, p1, p2] :: rest, w⟩).st
        = ⟨rest, w⟩ ∧
    (sense d e ⟨BusReply.ok [t0, t1] :: BusReply.ok [p0, p1, p2] :: rest, w⟩).e.Pressure
        = ((((p2 % 256) <<< 16 ||| (p1 % 256) <<< 8 ||| (p0 % 256)) * 48828125 / 2 : Nat) : Int) := by
  refine ⟨?_, ?_, ?_, ?_⟩ <;> simp [sense, readRegT]

/-- The implemented multiply-then-halve chain equals the specified
rational constant `10^11 / 4096` applied in integer arithmetic. -/
lemma pressure_const_eq (raw : Nat) :
    raw * 48828125 / 2 = raw * 100000000000 / 4096 := by
  have h : raw * 100000000000 = 2048 * (raw * 48828125) := by ring
  rw [h, show (4096 : Nat) = 2048 * 2 by norm_num]
  exact (Nat.mul_div_mul_left (raw * 48828125) 2 (by norm_num)).symm

/-- C6: `sense` combines the three pressure bytes little-endian as an
unsigned 24-bit quantity (no sign extension beyond bit 23, also when
byte 2 has its top bit set) and converts exactly by the rational
constant `10^11 / 4096` in integer arithmetic (implemented as multiply
by `10^11 / 2048` then divide by 2); bytes `[0x00, 0x50, 0x3F]` combine
to 4149248 and convert to exactly 101300 Pa (101300000000000 nPa). -/
theorem sense_pressure_conversion (d : Dev) (e : SensorValues) (t0 t1 b0 b1 b2 w : Nat)
    (rest : List BusReply) :
    (sense d e ⟨BusReply.ok [t0, t1] :: BusReply.ok [b0, b1, b2] :: rest, w⟩).res
        = Except.ok () ∧
    (sense d e ⟨BusReply.ok [t0, t1] :: BusReply.ok [b0, b1, b2] :: rest, w⟩).e.Pressure
        = ((((b2 % 256) <<< 16 ||| (b1 % 256) <<< 8 ||| (b0 % 256)) * 100000000000 / 4096
              : Nat) : Int) ∧
    (sense dev331 ⟨0, 0⟩ ⟨[BusReply.ok [0, 0], BusReply.ok [0x00, 0x50, 0x3f]], 0⟩).e.Pressure
        = 101300000000000 := by
  have h := sense_ok_parts d e t0 t1 b0 b1 b2 rest w
  refine ⟨h.1, ?_, by rfl⟩
  rw [h.2.2.2, pressure_const_eq]

/-- Counterexample to C1 as stated: on an LPS331A handle with the output
record initially zeroed, a run whose temperature read succeeds (raw
bytes `0xD0 0x6B`) and whose pressure read fails returns an error, yet
the Temperature field of the output has been changed (to 100.0 °C =
373150000000 nK) — the failed measurement does not leave the output
untouched. -/
theorem sense_partial_update_counterexample :
    (sense dev331 ⟨0, 0⟩ ⟨[BusReply.ok [0xd0, 0x6b], BusReply.err], 0⟩).res
        = Except.error DrvError.txError ∧
    (sense dev331 ⟨0, 0⟩ ⟨[BusReply.ok [0xd0, 0x6b], BusReply.err], 0⟩).e.Temperature
        = 373150000000 ∧
    (373150000000 : Int) ≠ 0 := by
  exact ⟨rfl, rfl, by norm_num⟩

/-- C1 amended: a failed `sense` never modifies the Pressure field, and
leaves the whole output untouched whenever the temperature read itself
did not succeed; only the partial-success case (temperature read
succeeded, pressure read failed) leaves the Temperature field already
updated. -/
theorem sense_error_leaves_pressure (d : Dev) (e : SensorValues) (s : S) (er : DrvError)
    (h : (sense d e s).res = Except.error er) :
    (sense d e s).e.Pressure = e.Pressure ∧
    ((∀ data, s.script.head? ≠ some (BusReply.ok data)) → (sense d e s).e = e) := by
  rcases s with ⟨script, w⟩
  cases script with
  | nil => exact ⟨rfl, fun _ => rfl⟩
  | cons r rest =>
      cases r with
      | err => exact ⟨rfl, fun _ => rfl⟩
      | ok data =>
          constructor
          · cases rest with
            | nil => simp [sense, readRegT, apply_ite SensorValues.Pressure]
            | cons r2 rest2 =>
                cases r2 with
                | err => simp [sense, readRegT, apply_ite SensorValues.Pressure]
                | ok pdata => simp [sense, readRegT] at h
          · intro h2
            exact (h2 data rfl).elim

/-- Witness for C1's amended statement: a failing temperature read
leaves the whole record unchanged. -/
theorem sense_error_leaves_pressure_w :
    (sense dev331 ⟨1, 2⟩ ⟨[BusReply.err], 0⟩).res = Except.error DrvError.txError ∧
    (sense dev331 ⟨1, 2⟩ ⟨[BusReply.err], 0⟩).e.Pressure = 2 ∧
    (sense dev331 ⟨1, 2⟩ ⟨[BusReply.err], 0⟩).e = ⟨1, 2⟩ := by
  have h := sense_error_leaves_pressure dev331 ⟨1, 2⟩ ⟨[BusReply.err], 0⟩ DrvError.txError rfl
  exact ⟨rfl, h.1, h.2 (fun data => by simp)⟩

/-- C2 exhibit: the LPS22H arm of the temperature switch in `sense` is
an empty Go case (no fallthrough), so a successful LPS22H reading never
assigns the Temperature field: it stays at whatever the caller passed in
(12345 or 777 below), instead of being the variant conversion law of the
raw word 0x09C4 = 2500; the same bytes on the LPS25H arm directly below
yield the 100-counts-per-°C law value 298150000000 nK = 25.0 °C. -/
theorem sense_lps22h_temperature_stale :
    (sense dev22 ⟨12345, 0⟩ ⟨[BusReply.ok [0xc4, 0x09], BusReply.ok [0, 0, 0]], 0⟩).res
        = Except.ok () ∧
    (sense dev22 ⟨12345, 0⟩ ⟨[BusReply.ok [0xc4, 0x09], BusReply.ok [0, 0, 0]], 0⟩).e.Temperature
        = 12345 ∧
    (sense dev22 ⟨777, 0⟩ ⟨[BusReply.ok [0xc4, 0x09], BusReply.ok [0, 0, 0]], 0⟩).e.Temperature
        = 777 ∧
    (sense dev25 ⟨12345, 0⟩ ⟨[BusReply.ok [0xc4, 0x09], BusReply.ok [0, 0, 0]], 0⟩).e.Temperature
        = 298150000000 := by
  exact ⟨rfl, rfl, rfl, rfl⟩

/-! ### Construction lemmas -/

/-- `Init` only ever toggles the one-shot flag on the handle; register
map, chip type and initial control byte are untouched. -/
lemma Init_fields (d : Dev) (o : Opts) (s : S) (d' : Dev)
    (h : (Init d o s).res = Except.ok d') :
    d'.chipType = d.chipType ∧ d'.regs = d.regs ∧ d'.initCmd = d.initCmd := by
  unfold Init at h
  by_cases hm : o.Mode = MeasurementMode.OneShot
  · rw [if_pos hm] at h
    simp only [Except.ok.injEq] at h
    subst h
    exact ⟨rfl, rfl, rfl⟩
  · rw [if_neg hm] at h
    cases hw : (writeCommandsT d [d.regs.ctrl_reg1, d.initCmd] s).res with
    | error e =>
        simp only [hw, Except.map] at h
        exact Except.noConfusion h
    | ok u =>
        simp only [hw, Except.map, Except.ok.injEq] at h
        subst h
        exact ⟨rfl, rfl, rfl⟩

/-- The post-dispatch tail of construction returns the dispatched handle
with chip type, register map and initial control byte unchanged. -/
lemma makeDevRest_fields (d : Dev) (o : Opts) (s : S) (d' : Dev)
    (h : (makeDevRest d o s).res = Except.ok d') :
    d'.chipType = d.chipType ∧ d'.regs = d.regs ∧ d'.initCmd = d.initCmd := by
  unfold makeDevRest at h
  cases hsc : (ShowCtrls d s).res with
  | error e =>
      simp only [hsc] at h
      exact Except.noConfusion h
  | ok u =>
      simp only [hsc] at h
      exact Init_fields d o _ d' h

/-- C4: construction reads the identification byte and dispatches on the
closed set {0xBB, 0xBD, 0xB1}: a member selects that variant's fixed
register map (resolution-configuration address 0 meaning absent) and the
initial control byte `(powerDownBit <<< 7) ||| (dataRateCode <<< 4)`;
any other byte fails with the unsupported-chip error, producing no
handle. -/
theorem makeDev_variant_dispatch (isSPI : Bool) (opts : Option Opts) (c w : Nat)
    (rest : List BusReply) (hc : c < 256) :
    (¬(c = 0xbb ∨ c = 0xbd ∨ c = 0xb1) →
      (makeDev isSPI opts ⟨BusReply.ok [c] :: rest, w⟩).res
        = Except.error (DrvError.unsupportedChip c)) ∧
    (∀ d', (makeDev isSPI opts ⟨BusReply.ok [c] :: rest, w⟩).res = Except.ok d' →
      d'.chipType = c ∧
      (c = 0xbb → d'.regs = ⟨0x20, 0x21, 0x10⟩ ∧ d'.initCmd = 1 <<< 7 ||| 0b110 <<< 4) ∧
      (c = 0xbd → d'.regs = ⟨0x20, 0x21, 0x10⟩ ∧ d'.initCmd = 1 <<< 7 ||| 0b011 <<< 4) ∧
      (c = 0xb1 → d'.regs = ⟨0x10, 0x11, 0x00⟩ ∧ d'.initCmd = 0 <<< 7 ||| 0b110 <<< 4)) := by
  have hmod : c % 256 = c := Nat.mod_eq_of_lt hc
  constructor
  · intro hbad
    push_neg at hbad
    simp [makeDev, readRegT, hmod, chipLPS331A, chipLPS25H, chipLPS22H,
      hbad.1, hbad.2.1, hbad.2.2]
  · intro d' h
    by_cases h1 : c = 0xbb
    · subst h1
      simp only [makeDev, readRegT, List.map_cons, List.map_nil, hmod, List.getD] at h
      norm_num [chipLPS331A] at h
      have hf := makeDevRest_fields _ _ _ _ h
      refine ⟨hf.1, fun _ => ⟨hf.2.1, by rw [hf.2.2] <;> simp⟩, fun hx => absurd hx (by norm_num),
        fun hx => absurd hx (by norm_num)⟩
    · by_cases h2 : c = 0xbd
      · subst h2
        simp only [makeDev, readRegT, List.map_cons, List.map_nil, hmod, List.getD] at h
        norm_num [chipLPS331A, chipLPS25H] at h
        have hf := makeDevRest_fields _ _ _ _ h
        refine ⟨hf.1, fun hx => absurd hx (by norm_num), fun _ => ⟨hf.2.1, by rw [hf.2.2] <;> simp⟩,
          fun hx => absurd hx (by norm_num)⟩
      · by_cases h3 : c = 0xb1
        · subst h3
          simp only [makeDev, readRegT, List.map_cons, List.map_nil, hmod, List.getD] at h
          norm_num [chipLPS331A, chipLPS25H, chipLPS22H] at h
          have hf := makeDevRest_fields _ _ _ _ h
          refine ⟨hf.1, fun hx => absurd hx (by norm_num), fun hx => absurd hx (by norm_num),
            fun _ => ⟨hf.2.1, by rw [hf.2.2] <;> simp⟩⟩
        · exfalso
          simp [makeDev, readRegT, hmod, chipLPS331A, chipLPS25H, chipLPS22H, h1, h2, h3] at h

/-- Witness for C4: byte 0x42 is rejected with the unsupported-chip
error; byte 0xBB (a full successful construction run) yields exactly the
LPS331A register map and initial control byte 0xE0. -/
theorem makeDev_variant_dispatch_w :
    (makeDev false none ⟨[BusReply.ok [0x42]], 0⟩).res
        = Except.error (DrvError.unsupportedChip 0x42) ∧
    dev331.chipType = 0xbb ∧ dev331.regs = ⟨0x20, 0x21, 0x10⟩ ∧
    dev331.initCmd = 1 <<< 7 ||| 0b110 <<< 4 := by
  have h1 := (makeDev_variant_dispatch false none 0x42 0 [] (by norm_num)).1 (by decide)
  have hres : (makeDev false none
      ⟨BusReply.ok [0xbb] :: [BusReply.ok [0], BusReply.ok [0], BusReply.ok [0], BusReply.ok []],
        0⟩).res = Except.ok dev331 := rfl
  have h2 := (makeDev_variant_dispatch false none 0xbb 0
    [BusReply.ok [0], BusReply.ok [0], BusReply.ok [0], BusReply.ok []] (by norm_num)).2
    dev331 hres
  exact ⟨h1, h2.1, (h2.2.1 rfl).1, (h2.2.1 rfl).2⟩

/-- The trace of a `writeCommands` call is the single write transaction,
whether or not the bus accepts it. -/
lemma writeCommandsT_trace (d : Dev) (b : List Nat) (s : S) :
    (writeCommandsT d b s).trace = [BusTx.write (writeData d b)] := by
  unfold writeCommandsT
  rcases s with ⟨script, w⟩
  cases script with
  | nil => rfl
  | cons r rest => cases r <;> rfl

/-- SPI masking does not change a register/value pair whose register
byte has no high bit; in particular the wire bytes equal the logical
ones on both framings. -/
lemma writeData_pair (d : Dev) (a v : Nat) (ha : a % 256 % 128 = a) :
    writeData d [a, v] = [a, v] := by
  cases hspi : d.isSPI <;> simp [writeData, hspi, spiMaskWrite, ha]

/-- C7: initialization in one-shot mode performs no bus operation at all
and only sets the one-shot flag on the handle; initialization in
continuous mode issues exactly one write transaction, the pair
(primary control register, initial control byte), and nothing else. -/
theorem Init_mode_transactions (d : Dev) (s : S) (h : IsConstructedDev d) :
    Init d ⟨MeasurementMode.OneShot⟩ s
        = ⟨Except.ok { d with oneshotMode := true }, [], s⟩ ∧
    (Init d ⟨MeasurementMode.Continuous⟩ s).trace
        = [BusTx.write [d.regs.ctrl_reg1, d.initCmd]] := by
  refine ⟨rfl, ?_⟩
  have ht : (Init d ⟨MeasurementMode.Continuous⟩ s).trace
      = [BusTx.write (writeData d [d.regs.ctrl_reg1, d.initCmd])] := by
    simp [Init, writeCommandsT_trace]
  rcases h with ⟨_, hr, _⟩ | ⟨_, hr, _⟩ | ⟨_, hr, _⟩ <;>
    rw [ht, hr, writeData_pair d _ _ (by norm_num)]

/-- Witness for C7 on a concrete LPS331A handle: no transaction in
one-shot initialization, the single `(0x20, 0xE0)` write in continuous
initialization. -/
theorem Init_mode_transactions_w :
    Init dev331 ⟨MeasurementMode.OneShot⟩ ⟨[], 0⟩
        = ⟨Except.ok { dev331 with oneshotMode := true }, [], ⟨[], 0⟩⟩ ∧
    (Init dev331 ⟨MeasurementMode.Continuous⟩ ⟨[BusReply.ok []], 0⟩).trace
        = [BusTx.write [0x20, 0xe0]] := by
  have h1 := (Init_mode_transactions dev331 ⟨[], 0⟩ (Or.inl ⟨rfl, rfl, rfl⟩)).1
  have h2 := (Init_mode_transactions dev331 ⟨[BusReply.ok []], 0⟩ (Or.inl ⟨rfl, rfl, rfl⟩)).2
  exact ⟨h1, h2⟩

/-- Every handle a successful construction returns has one of the three
variant field shapes. -/
lemma makeDev_ok_shape (isSPI : Bool) (opts : Option Opts) (s : S) (d' : Dev)
    (h : (makeDev isSPI opts s).res = Except.ok d') : IsConstructedDev d' := by
  unfold makeDev at h
  cases hr : (readRegT 0x0F 1 s).res with
  | error e =>
      simp only [hr] at h
      exact Except.noConfusion h
  | ok data =>
      simp only [hr] at h
      by_cases h1 : data.getD 0 0 = chipLPS331A
      · rw [if_pos h1] at h
        simp only at h
        have hf := makeDevRest_fields _ _ _ _ h
        exact Or.inl ⟨by rw [hf.1, h1], by rw [hf.2.1], by rw [hf.2.2]; simp⟩
      · rw [if_neg h1] at h
        by_cases h2 : data.getD 0 0 = chipLPS25H
        · rw [if_pos h2] at h
          simp only at h
          have hf := makeDevRest_fields _ _ _ _ h
          exact Or.inr (Or.inl ⟨by rw [hf.1, h2], by rw [hf.2.1], by rw [hf.2.2]; simp⟩)
        · rw [if_neg h2] at h
          by_cases h3 : data.getD 0 0 = chipLPS22H
          · rw [if_pos h3] at h
            simp only at h
            have hf := makeDevRest_fields _ _ _ _ h
            exact Or.inr (Or.inr ⟨by rw [hf.1, h3], by rw [hf.2.1], by rw [hf.2.2]; simp⟩)
          · rw [if_neg h3] at h
            exact Except.noConfusion h

/-- A `writeCommands` transaction never produces the unknown-chip
error. -/
lemma writeCommandsT_res_ne_unknown (d : Dev) (b : List Nat) (s : S) (x : Nat) :
    (writeCommandsT d b s).res ≠ Except.error (DrvError.unknownChip x) := by
  unfold writeCommandsT
  rcases s with ⟨script, w⟩
  cases script with
  | nil => simp
  | cons r rest => cases r <;> simp

/-- The poll loop never produces the unknown-chip error. -/
lemma pollCtrlReg2_res_ne_unknown (d : Dev) (value : Nat) (cancel : Nat → Bool)
    (script : List BusReply) (w : Nat) (x : Nat) :
    (pollCtrlReg2 d value cancel script w).res ≠ Except.error (DrvError.unknownChip x) := by
  induction script generalizing w with
  | nil => simp [pollCtrlReg2]
  | cons r rest ih =>
      cases r with
      | err => simp [pollCtrlReg2]
      | ok data =>
          simp only [pollCtrlReg2]
          by_cases hd : data.headD 0 % 256 &&& value % 256 = 0
          · rw [if_pos hd]
            simp
          · rw [if_neg hd]
            by_cases hcw : cancel w = true
            · rw [if_pos hcw]
              simp
            · rw [if_neg hcw]
              exact ih (w + 1)

/-- Command-and-poll never produces the unknown-chip error. -/
lemma setAndCheckCtrlReg2_res_ne_unknown (d : Dev) (value : Nat) (cancel : Nat → Bool)
    (s : S) (x : Nat) :
    (setAndCheckCtrlReg2 d value cancel s).res ≠ Except.error (DrvError.unknownChip x) := by
  unfold setAndCheckCtrlReg2
  cases hw : (writeCommandsT d [d.regs.ctrl_reg2, value] s).res with
  | error e =>
      simp only [hw]
      intro hh
      exact writeCommandsT_res_ne_unknown d [d.regs.ctrl_reg2, value] s x (by rw [hw]; exact hh)
  | ok u =>
      simp only [hw]
      exact pollCtrlReg2_res_ne_unknown d value cancel _ _ x

/-- Sequencing preserves "never returns this error". -/
lemma seqOut_res_ne (a : Out Unit) (f : S → Out Unit) (er : DrvError)
    (ha : a.res ≠ Except.error er) (hf : ∀ s, (f s).res ≠ Except.error er) :
    (seqOut a f).res ≠ Except.error er := by
  unfold seqOut
  cases h : a.res with
  | error e =>
      simp only [h]
      intro hh
      exact ha (by rw [h]; exact hh)
  | ok u =>
      simp only [h]
      exact hf a.st

/-- Under the register-map invariant the RES_CONF dispatch never reaches
its unknown-chip default. -/
lemma resConfStep_res_ne_unknown (d : Dev) (s : S) (x : Nat)
    (hinv : d.regs.res_conf ≠ 0 → d.chipType = chipLPS331A ∨ d.chipType = chipLPS25H) :
    (resConfStep d s).res ≠ Except.error (DrvError.unknownChip x) := by
  unfold resConfStep
  by_cases h0 : d.regs.res_conf = 0
  · simp [h0]
  · rw [if_neg h0]
    rcases hinv h0 with h | h
    · rw [h]
      rw [if_neg (by simp [chipLPS331A, chipLPS25H]), if_pos rfl]
      exact writeCommandsT_res_ne_unknown d _ s x
    · rw [h, if_pos rfl]
      exact writeCommandsT_res_ne_unknown d _ s x

/-- C10: every successfully constructed handle satisfies the
register-map invariant "a resolution-configuration register is present
(non-zero address) only on the LPS331A (0xBB) and LPS25H (0xBD)
variants"; re-initialization (the only operation returning a handle —
all others leave the handle untouched by construction of the embedding)
preserves the register map and chip type; and consequently the
unknown-chip default of the averaging-code dispatch inside the one-shot
measurement is unreachable from any constructed handle. -/
theorem resConf_invariant_unknown_unreachable (isSPI : Bool) (opts : Option Opts)
    (s : S) (d' : Dev) (h : (makeDev isSPI opts s).res = Except.ok d') :
    (d'.regs.res_conf ≠ 0 → d'.chipType = chipLPS331A ∨ d'.chipType = chipLPS25H) ∧
    (∀ o s2 d2, (Init d' o s2).res = Except.ok d2 →
        d2.regs = d'.regs ∧ d2.chipType = d'.chipType) ∧
    (∀ cancel s2 x,
        (measureOneshot d' cancel s2).res ≠ Except.error (DrvError.unknownChip x)) := by
  have hshape := makeDev_ok_shape isSPI opts s d' h
  have hinv : d'.regs.res_conf ≠ 0 → d'.chipType = chipLPS331A ∨ d'.chipType = chipLPS25H := by
    rcases hshape with ⟨hct, hr, _⟩ | ⟨hct, hr, _⟩ | ⟨hct, hr, _⟩
    · exact fun _ => Or.inl hct
    · exact fun _ => Or.inr hct
    · intro hrc
      exact absurd (by rw [hr]) hrc
  refine ⟨hinv, ?_, ?_⟩
  · intro o s2 d2 h2
    have hf := Init_fields d' o s2 d2 h2
    exact ⟨hf.2.1, hf.1⟩
  · intro cancel s2 x
    unfold measureOneshot
    refine seqOut_res_ne _ _ _ (writeCommandsT_res_ne_unknown _ _ _ _) (fun s1 => ?_)
    refine seqOut_res_ne _ _ _ (resConfStep_res_ne_unknown d' s1 x hinv) (fun s2' => ?_)
    refine seqOut_res_ne _ _ _ (writeCommandsT_res_ne_unknown _ _ _ _) (fun s3 => ?_)
    exact setAndCheckCtrlReg2_res_ne_unknown d' 0b1 cancel s3 x

/-- Witness for C10 on a concrete successful LPS331A construction. -/
theorem resConf_invariant_unknown_unreachable_w :
    (dev331.regs.res_conf ≠ 0 → dev331.chipType = chipLPS331A ∨ dev331.chipType = chipLPS25H) ∧
    (measureOneshot dev331 (fun _ => false) ⟨[], 0⟩).res
        ≠ Except.error (DrvError.unknownChip 0xbb) := by
  have h := resConf_invariant_unknown_unreachable false none
    ⟨[BusReply.ok [0xbb], BusReply.ok [0], BusReply.ok [0], BusReply.ok [0], BusReply.ok []], 0⟩
    dev331 rfl
  exact ⟨h.1, h.2.2 (fun _ => false) ⟨[], 0⟩ 0xbb⟩

/-- C9: on the LPS331A, software reset is the dedicated sequence — write
the reset bit 0b100 to the secondary control register, a cancellable
wait, write 0 to clear it, another cancellable wait, then read and
discard 5 bytes from the combined pressure/temperature output registers
(0x28|0x80) — with no poll of the control register at all (the trace
contains exactly the two writes and the single 5-byte read, and the two
waits advance the wait counter by two); cancellation at the first wait
stops the sequence with no further transaction.  On the LPS22H and
LPS25H, software reset is exactly command-and-poll with bit 0b100. -/
theorem SWReset_dispatch (d : Dev) (h : IsConstructedDev d) :
    (d.chipType = chipLPS331A →
      (∀ dat rest w,
        SWReset d (fun _ => false)
            ⟨BusReply.ok [] :: BusReply.ok [] :: BusReply.ok dat :: rest, w⟩
          = ⟨Except.ok (),
             [BusTx.write [0x21, 0b100], BusTx.write [0x21, 0],
              BusTx.read (0x28 ||| 0x80) 5],
             ⟨rest, w + 2⟩⟩) ∧
      (∀ rest w,
        (SWReset d (fun _ => true) ⟨BusReply.ok [] :: rest, w⟩).res
            = Except.error DrvError.cancelled ∧
        (SWReset d (fun _ => true) ⟨BusReply.ok [] :: rest, w⟩).trace
            = [BusTx.write [0x21, 0b100]])) ∧
    (d.chipType = chipLPS22H ∨ d.chipType = chipLPS25H →
      ∀ cancel s, SWReset d cancel s = setAndCheckCtrlReg2 d 0b100 cancel s) := by
  constructor
  · intro hct
    have hr : d.regs = ⟨0x20, 0x21, 0x10⟩ := by
      rcases h with ⟨_, hr, _⟩ | ⟨hc2, _, _⟩ | ⟨hc2, _, _⟩
      · exact hr
      · rw [hct] at hc2
        exact absurd hc2 (by simp [chipLPS331A, chipLPS25H])
      · rw [hct] at hc2
        exact absurd hc2 (by simp [chipLPS331A, chipLPS22H])
    have e1 := writeData_pair d 0x21 0b100 (by norm_num)
    have e2 := writeData_pair d 0x21 0 (by norm_num)
    constructor
    · intro dat rest w
      simp [SWReset, hct, swResetLPS331, seqOut, writeCommandsT, waitCancelT, readRegT,
        Except.map, hr, e1, e2]
    · intro rest w
      refine ⟨?_, ?_⟩ <;>
        simp [SWReset, hct, swResetLPS331, seqOut, writeCommandsT, waitCancelT, hr, e1]
  · intro hct cancel s
    rcases hct with hct | hct
    · rw [SWReset, if_neg (by rw [hct]; simp [chipLPS331A, chipLPS22H]),
        if_pos (Or.inl hct)]
    · rw [SWReset, if_neg (by rw [hct]; simp [chipLPS331A, chipLPS25H]),
        if_pos (Or.inr hct)]

/-- Witness for C9: concrete LPS331A reset run and concrete LPS25H
dispatch to command-and-poll. -/
theorem SWReset_dispatch_w :
    SWReset dev331 (fun _ => false)
        ⟨[BusReply.ok [], BusReply.ok [], BusReply.ok [1, 2, 3, 4, 5]], 0⟩
      = ⟨Except.ok (),
         [BusTx.write [0x21, 0b100], BusTx.write [0x21, 0], BusTx.read (0x28 ||| 0x80) 5],
         ⟨[], 2⟩⟩ ∧
    SWReset dev25 (fun _ => false) ⟨[BusReply.ok [], BusReply.ok [0]], 0⟩
      = setAndCheckCtrlReg2 dev25 0b100 (fun _ => false) ⟨[BusReply.ok [], BusReply.ok [0]], 0⟩ := by
  have h1 := ((SWReset_dispatch dev331 (Or.inl ⟨rfl, rfl, rfl⟩)).1 rfl).1 [1, 2, 3, 4, 5] [] 0
  have h2 := (SWReset_dispatch dev25 (Or.inr (Or.inl ⟨rfl, rfl, rfl⟩))).2 (Or.inr rfl)
    (fun _ => false) ⟨[BusReply.ok [], BusReply.ok [0]], 0⟩
  exact ⟨h1, h2⟩

/-- C5: a successful one-shot `Sense` on any constructed handle issues
exactly, in this order: (1) a write of 0 to the primary control
register; (2) only when the variant has a resolution-configuration
register, a write of the variant-specific averaging code to it; (3) the
power-up write 0b10000100 (PD|BDU) to the primary control register;
(4) the trigger write of bit 0 to the secondary control register
followed by its poll reads (`k` busy reads then the clearing read);
(5) the 2-byte temperature read at 0x2B|0x80; (6) the 3-byte pressure
read at 0x28|0x80 — temperature strictly before pressure, and nothing
else. -/
theorem Sense_oneshot_sequence (d : Dev) (e : SensorValues)
    (hcd : IsConstructedDev d) (hm : d.oneshotMode = true)
    (k t0 t1 p0 p1 p2 w : Nat) :
    (Sense d (fun _ => false) e
        ⟨BusReply.ok []
            :: ((if d.regs.res_conf = 0 then ([] : List BusReply) else [BusReply.ok []])
              ++ BusReply.ok [] :: BusReply.ok []
              :: (List.replicate k (BusReply.ok [1])
                ++ BusReply.ok [0] :: BusReply.ok [t0, t1]
                  :: BusReply.ok [p0, p1, p2] :: [])), w⟩).res
      = Except.ok () ∧
    (Sense d (fun _ => false) e
        ⟨BusReply.ok []
            :: ((if d.regs.res_conf = 0 then ([] : List BusReply) else [BusReply.ok []])
              ++ BusReply.ok [] :: BusReply.ok []
              :: (List.replicate k (BusReply.ok [1])
                ++ BusReply.ok [0] :: BusReply.ok [t0, t1]
                  :: BusReply.ok [p0, p1, p2] :: [])), w⟩).trace
      = BusTx.write [d.regs.ctrl_reg1, 0]
          :: ((if d.regs.res_conf = 0 then ([] : List BusTx)
               else [BusTx.write [d.regs.res_conf,
                      if d.chipType = chipLPS25H then 0b00001111 else 0b01111010]])
            ++ BusTx.write [d.regs.ctrl_reg1, 0b10000100]
            :: BusTx.write [d.regs.ctrl_reg2, 0b1]
            :: (List.replicate (k + 1) (BusTx.read d.regs.ctrl_reg2 1)
              ++ [BusTx.read (0x2b ||| 0x80) 2, BusTx.read (0x28 ||| 0x80) 3])) := by
  have hb := setAndCheckCtrlReg2_busy_then_clear d 0b1 k w 1 0 (by decide) (by decide)
    (BusReply.ok [t0, t1] :: BusReply.ok [p0, p1, p2] :: [])
  have hs := sense_ok_parts d e t0 t1 p0 p1 p2 [] (w + k)
  rcases hcd with ⟨hct, hr, hi⟩ | ⟨hct, hr, hi⟩ | ⟨hct, hr, hi⟩
  · have e1 := writeData_pair d 0x20 0 (by norm_num)
    have e2 := writeData_pair d 0x10 0b01111010 (by norm_num)
    have e3 := writeData_pair d 0x20 0b10000100 (by norm_num)
    have e4 := writeData_pair d 0x21 0b1 (by norm_num)
    rw [hr] at hb
    rw [e4] at hb
    refine ⟨?_, ?_⟩ <;>
      simp [Sense, hm, measureOneshot, seqOut, resConfStep, writeCommandsT, hr, hct,
        chipLPS331A, chipLPS25H, chipLPS22H, e1, e2, e3, hb, hs.1, hs.2.1, hs.2.2.1]
  · have e1 := writeData_pair d 0x20 0 (by norm_num)
    have e2 := writeData_pair d 0x10 0b00001111 (by norm_num)
    have e3 := writeData_pair d 0x20 0b10000100 (by norm_num)
    have e4 := writeData_pair d 0x21 0b1 (by norm_num)
    rw [hr] at hb
    rw [e4] at hb
    refine ⟨?_, ?_⟩ <;>
      simp [Sense, hm, measureOneshot, seqOut, resConfStep, writeCommandsT, hr, hct,
        chipLPS331A, chipLPS25H, chipLPS22H, e1, e2, e3, hb, hs.1, hs.2.1, hs.2.2.1]
  · have e1 := writeData_pair d 0x10 0 (by norm_num)
    have e3 := writeData_pair d 0x10 0b10000100 (by norm_num)
    have e4 := writeData_pair d 0x11 0b1 (by norm_num)
    rw [hr] at hb
    rw [e4] at hb
    refine ⟨?_, ?_⟩ <;>
      simp [Sense, hm, measureOneshot, seqOut, resConfStep, writeCommandsT, hr, hct,
        chipLPS331A, chipLPS25H, chipLPS22H, e1, e3, hb, hs.1, hs.2.1, hs.2.2.1]

/-- Witness for C5: a full concrete one-shot run on an LPS331A handle
with one busy poll read. -/
theorem Sense_oneshot_sequence_w :
    (Sense { dev331 with oneshotMode := true } (fun _ => false) ⟨0, 0⟩
        ⟨[BusReply.ok [], BusReply.ok [], BusReply.ok [], BusReply.ok [],
          BusReply.ok [1], BusReply.ok [0], BusReply.ok [0xd0, 0x6b],
          BusReply.ok [0, 0x50, 0x3f]], 0⟩).res = Except.ok () ∧
    (Sense { dev331 with oneshotMode := true } (fun _ => false) ⟨0, 0⟩
        ⟨[BusReply.ok [], BusReply.ok [], BusReply.ok [], BusReply.ok [],
          BusReply.ok [1], BusReply.ok [0], BusReply.ok [0xd0, 0x6b],
          BusReply.ok [0, 0x50, 0x3f]], 0⟩).trace
      = [BusTx.write [0x20, 0], BusTx.write [0x10, 0b01111010],
         BusTx.write [0x20, 0b10000100], BusTx.write [0x21, 0b1],
         BusTx.read 0x21 1, BusTx.read 0x21 1,
         BusTx.read 0xab 2, BusTx.read 0xa8 3] := by
  have h := Sense_oneshot_sequence { dev331 with oneshotMode := true } ⟨0, 0⟩
    (Or.inl ⟨rfl, rfl, rfl⟩) rfl 1 0xd0 0x6b 0 0x50 0x3f 0
  exact ⟨h.1, h.2⟩

end LPS
